import Mathlib

/-!
Shallow embedding of `src/speech_obs.py` (live Icelandic speech →
English subtitle pipeline for an OBS overlay).

Python strings are modelled as Lean `String`; Python exceptions are
modelled with `Except` (a function that can raise returns
`Except PyError α`); the external services (OpenAI chat completion,
OBS websocket) are modelled as injected result values, since the
program only observes their returned value or raised exception.
Side effects (texts sent to the OBS sink, lines printed) are returned
as explicit lists, in program order.
-/

namespace SpeechObs

/-- Python runtime exceptions that the embedded code can raise. -/
inductive PyError where
  | typeError
  | indexError
  | apiError
  deriving DecidableEq, Repr

/-- Failures of the external OBS websocket sink. -/
inductive ObsError where
  | connectionFailed
  | requestFailed
  deriving DecidableEq, Repr

/-- `MAX_SUBTITLE_LENGTH = 60` (line 10). -/
def MAX_SUBTITLE_LENGTH : Nat := 60

/-- Helper for Python `str.split()` with no argument: split on runs of
whitespace, discarding empty pieces.  The accumulator holds the current
word reversed. -/
def splitWsAux : List Char → List Char → List (List Char)
  | [], [] => []
  | [], acc => [acc.reverse]
  | c :: cs, acc =>
    if c.isWhitespace then
      match acc with
      | [] => splitWsAux cs []
      | _ :: _ => acc.reverse :: splitWsAux cs []
    else splitWsAux cs (c :: acc)

/-- Python `text.split()` (line 73). -/
def pySplit (s : String) : List String :=
  (splitWsAux s.data []).map String.mk

/-- Python `" ".join(ws)`. -/
def joinSpace (ws : List String) : String :=
  String.intercalate " " ws

/-- Python `s.strip()` with no argument: drop whitespace from both ends. -/
def pyStrip (s : String) : String :=
  String.mk (((s.data.dropWhile Char.isWhitespace).reverse.dropWhile
    Char.isWhitespace).reverse)

/-- The loop condition of line 80:
`len(" ".join(current_chunk) + len(word) + 1) <= MAX_SUBTITLE_LENGTH`.
`" ".join(current_chunk)` is a `str` and `len(word)` is an `int`, so the
innermost `+` is `str + int`, which raises `TypeError` in Python before
any length is taken or compared.  The condition therefore never yields a
boolean. -/
def boundary_check (current_chunk : List String) (word : String) :
    Except PyError Bool :=
  let _joined : String := joinSpace current_chunk
  let _wlen : Nat := word.length
  Except.error PyError.typeError

/-- The `for word in words` loop of lines 79-86.  State mirrors the Python
locals: `subtitle_chunks` (finished chunks) and `current_chunk` (words of
the chunk being built).  A `TypeError` from the condition propagates. -/
def subtitle_loop :
    List String → List String → List String →
    Except PyError (List String × List String)
  | [], subtitle_chunks, current_chunk =>
    Except.ok (subtitle_chunks, current_chunk)
  | word :: rest, subtitle_chunks, current_chunk =>
    match boundary_check current_chunk word with
    | Except.error e => Except.error e
    | Except.ok true =>
      subtitle_loop rest subtitle_chunks (current_chunk ++ [word])
    | Except.ok false =>
      subtitle_loop rest (subtitle_chunks ++ [joinSpace current_chunk]) [word]

/-- Lines 73-88: split the text, run the loop from empty state, then append
the last chunk (`subtitle_chunks.append(" ".join(current_chunk))`).
Returns the final `subtitle_chunks` list, or the uncaught exception. -/
def subtitle_chunks_of (text : String) : Except PyError (List String) :=
  match subtitle_loop (pySplit text) [] [] with
  | Except.error e => Except.error e
  | Except.ok (chunks, current_chunk) =>
    Except.ok (chunks ++ [joinSpace current_chunk])

/-- Observable outcome of `display_subtitles`: the texts passed to
`update_obs_subtitles`, in order, and the exception escaping the function
if any. -/
structure DisplayResult where
  updates : List String
  err : Option PyError
  deriving DecidableEq, Repr

/-- `display_subtitles(text)` (lines 71-93).  Line 77 first sends the whole
untruncated `text` to the sink; then the chunk loop runs; if it finishes,
each chunk of `subtitle_chunks` is sent in order (lines 92-93).
`update_obs_subtitles` itself never raises, so the update list does not
depend on sink failures. -/
def display_subtitles (text : String) : DisplayResult :=
  match subtitle_chunks_of text with
  | Except.error e => { updates := [text], err := some e }
  | Except.ok chunks => { updates := text :: chunks, err := none }

/-! ### translate_text (lines 52-69) -/

/-- A chat message of the completion response. -/
structure ChatMessage where
  content : String
  deriving DecidableEq, Repr

/-- One element of `completion.choices`. -/
structure Choice where
  message : ChatMessage
  deriving DecidableEq, Repr

/-- The completion object returned by
`client.chat.completions.create`.  `containsError` models the membership
test `"error" in completion` of line 62 as an abstract boolean observation
of the response object. -/
structure ChatCompletion where
  choices : List Choice
  containsError : Bool
  deriving DecidableEq, Repr

/-- The body of the `try` block of lines 55-66, given the result of the
`create` call.  On `"error" not in completion`, `completion.choices[0]`
raises `IndexError` when `choices` is empty (line 63), otherwise the
message content is stripped and returned; on the error branch the
function logs and returns the placeholder (lines 65-66). -/
def translate_body (completion : ChatCompletion) : Except PyError String :=
  if completion.containsError = false then
    match completion.choices with
    | choice :: _ => Except.ok (pyStrip choice.message.content)
    | [] => Except.error PyError.indexError
  else
    Except.ok "[Translation Error]"

/-- `translate_text(text)` (lines 52-69), with the outcome of the remote
`create` call injected: the call either raises or returns a completion.
Any exception from the call or from the body is caught by the bare
`except` of line 67 and converted to the placeholder string. -/
def translate_text (api : Except PyError ChatCompletion) : String :=
  match api >>= translate_body with
  | Except.ok s => s
  | Except.error _ => "[Translation Error]"

/-! ### update_obs_subtitles (lines 38-49) -/

/-- Rendering of a caught OBS exception by `print` (lines 33 and 49). -/
def obsErrorMessage : ObsError → String
  | ObsError.connectionFailed => "connection failed"
  | ObsError.requestFailed => "request failed"

/-- `update_obs_subtitles(text)` (lines 38-49), with the outcome of the
`obs_client.call` injected (the sink either returns a response string or
raises).  The whole body is wrapped in `try/except Exception`, so the
function always returns normally; the returned list holds the printed
lines.  The `Except PyError` in the result type records whether an
exception escapes the function: it never does. -/
def update_obs_subtitles (sink : Except ObsError String) (text : String) :
    Except PyError (List String) :=
  match sink with
  | Except.ok response =>
    Except.ok ["OBS Response: " ++ response,
               "Successfully updated OBS subtitles to: " ++ text]
  | Except.error e =>
    Except.ok ["Error updating OBS: " ++ obsErrorMessage e]

/-! ### on_recognized (lines 95-108) -/

/-- `speechsdk.ResultReason` values distinguished by the handler. -/
inductive ResultReason where
  | recognizedSpeech
  | noMatch
  | canceled
  deriving DecidableEq, Repr

/-- `speechsdk.CancellationReason` values. -/
inductive CancellationReason where
  | error
  | endOfStream
  | cancelledByUser
  deriving DecidableEq, Repr

/-- Rendering of a cancellation reason by `print` (line 106). -/
def cancellationReasonStr : CancellationReason → String
  | CancellationReason.error => "CancellationReason.Error"
  | CancellationReason.endOfStream => "CancellationReason.EndOfStream"
  | CancellationReason.cancelledByUser => "CancellationReason.CancelledByUser"

/-- `event.result.cancellation_details`. -/
structure CancellationDetails where
  reason : CancellationReason
  error_details : String
  deriving DecidableEq, Repr

/-- `event.result`. -/
structure RecognitionResult where
  reason : ResultReason
  text : String
  cancellation_details : CancellationDetails
  deriving DecidableEq, Repr

/-- The event object delivered to the recognized callback. -/
structure SpeechEvent where
  result : RecognitionResult
  deriving DecidableEq, Repr

/-- Observable outcome of one `on_recognized` invocation. -/
structure HandlerTrace where
  /-- Texts passed to `translate_text` (hence to the translation API). -/
  translationCalls : List String
  /-- Texts passed to `update_obs_subtitles` (hence toward the sink). -/
  overlayUpdates : List String
  /-- Lines printed by the handler itself. -/
  logs : List String
  /-- Exception escaping the handler into the SDK callback thread. -/
  err : Option PyError
  deriving DecidableEq, Repr

/-- `on_recognized(event)` (lines 95-108), with the translation API
outcome injected.  `RecognizedSpeech` → translate then display;
`NoMatch` → log only; `Canceled` → log the reason, and when the reason is
`Error`, log the error details.  No other branch exists. -/
def on_recognized (api : Except PyError ChatCompletion)
    (event : SpeechEvent) : HandlerTrace :=
  match event.result.reason with
  | ResultReason.recognizedSpeech =>
    let translated := translate_text api
    let d := display_subtitles translated
    { translationCalls := [event.result.text]
      overlayUpdates := d.updates
      logs := ["Recognized (Icelandic): " ++ event.result.text,
               "Translated (English): " ++ translated]
      err := d.err }
  | ResultReason.noMatch =>
    { translationCalls := []
      overlayUpdates := []
      logs := ["No speech could be recognized."]
      err := none }
  | ResultReason.canceled =>
    let cd := event.result.cancellation_details
    { translationCalls := []
      overlayUpdates := []
      logs :=
        ["Recognition canceled: " ++ cancellationReasonStr cd.reason] ++
          (if cd.reason = CancellationReason.error then
            ["Error details: " ++ cd.error_details]
          else [])
      err := none }

/-! ### Module startup (lines 22-34) and main (lines 111-124) -/

/-- Outcome of the top-level OBS connection block: the lines printed and,
when `exit(1)` runs, the exit status. -/
structure StartupResult where
  logs : List String
  exitCode : Option Nat
  deriving DecidableEq, Repr

/-- Lines 22-34: `obs_client.connect()` then a test
`SetTextGDIPlusProperties` call, both inside one `try`; any exception is
printed and the process exits with status 1.  The outcomes of the two
remote calls are injected. -/
def startup_block (connect : Except ObsError Unit)
    (testCall : Except ObsError String) : StartupResult :=
  match connect with
  | Except.error e =>
    { logs := ["Failed to connect to OBS WebSocket: " ++ obsErrorMessage e]
      exitCode := some 1 }
  | Except.ok _ =>
    match testCall with
    | Except.error e =>
      { logs := ["Connected to OBS WebSocket!",
                 "Failed to connect to OBS WebSocket: " ++ obsErrorMessage e]
        exitCode := some 1 }
    | Except.ok _ =>
      { logs := ["Connected to OBS WebSocket!", "Test subtitle sent to OBS!"]
        exitCode := none }

/-- Actions of `main()` visible outside the process. -/
inductive MainAction where
  | startRecognition
  | sleepOneSecond
  | stopRecognition
  | obsDisconnect
  deriving DecidableEq, Repr

/-- `main()` (lines 111-124): start continuous recognition, sleep in a
loop until `KeyboardInterrupt` (modelled as arriving after
`interruptAfter` completed sleeps), catch it, stop recognition and
disconnect from OBS, then return.  Returning normally from the script
gives process exit status 0, the second component. -/
def main_run (interruptAfter : Nat) : List MainAction × Nat :=
  ([MainAction.startRecognition] ++
     List.replicate interruptAfter MainAction.sleepOneSecond ++
     [MainAction.stopRecognition, MainAction.obsDisconnect], 0)

/-! ## Theorems about the claims -/

/-- C4: for every input text containing at least one whitespace-separated
word, the boundary comparison of line 80 raises a `TypeError` on the first
loop iteration, so no chunk is ever appended to `subtitle_chunks`
(the loop propagates the error with an empty chunk list) and the only text
sent toward the overlay sink is the pre-loop full-text update of line 77 —
no chunk update is ever sent. -/
theorem chunk_loop_raises_typeError_on_first_word
    (text : String) (h : pySplit text ≠ []) :
    subtitle_loop (pySplit text) [] [] = Except.error PyError.typeError ∧
    subtitle_chunks_of text = Except.error PyError.typeError ∧
    (display_subtitles text).updates = [text] ∧
    (display_subtitles text).err = some PyError.typeError := by
  obtain ⟨w, ws, hw⟩ := List.exists_cons_of_ne_nil h
  have hloop : subtitle_loop (pySplit text) [] [] =
      Except.error PyError.typeError := by
    rw [hw]; rfl
  have hchunks : subtitle_chunks_of text = Except.error PyError.typeError := by
    unfold subtitle_chunks_of
    rw [hloop]
  refine ⟨hloop, hchunks, ?_, ?_⟩ <;> simp [display_subtitles, hchunks]

/-- Witness for C4 at the concrete input `"hello world"`. -/
theorem chunk_loop_raises_typeError_on_first_word_witness :
    pySplit "hello world" ≠ [] ∧
    subtitle_chunks_of "hello world" = Except.error PyError.typeError ∧
    (display_subtitles "hello world").updates = ["hello world"] ∧
    (display_subtitles "hello world").err = some PyError.typeError := by
  have h : pySplit "hello world" ≠ [] := by decide
  have hmain := chunk_loop_raises_typeError_on_first_word "hello world" h
  exact ⟨h, hmain.2.1, hmain.2.2.1, hmain.2.2.2⟩

/-- C1 (code bug): the claimed round-trip property cannot hold, because on
the two-word input `"hello world"` the chunker raises `TypeError` at the
line-80 boundary check and produces no chunk sequence at all. -/
theorem roundtrip_impossible_chunker_raises :
    subtitle_chunks_of "hello world" = Except.error PyError.typeError := by
  rfl

/-- C2 (code bug): the length bound is never realized, because on this
72-character input (whose correct chunking needs two bounded chunks) the
chunker raises `TypeError` before any chunk exists whose length could be
compared with `MAX_SUBTITLE_LENGTH`. -/
theorem length_bound_unrealized_chunker_raises :
    String.length
      "The quick brown fox jumps over the lazy dog and keeps running far beyond"
      = 72 ∧
    subtitle_chunks_of
      "The quick brown fox jumps over the lazy dog and keeps running far beyond"
      = Except.error PyError.typeError := by
  constructor
  · decide
  · rfl

/-- C3 (code bug): no greedy word-appending ever happens: on
`"one two three"` the first iteration raises `TypeError`, the escaping
exception aborts `display_subtitles`, and only the pre-loop full-text
update is issued — in particular no final partial chunk is emitted. -/
theorem greedy_chunking_never_performed :
    display_subtitles "one two three" =
      { updates := ["one two three"], err := some PyError.typeError } := by
  rfl

/-- C8: on every input text, the first text passed to
`update_obs_subtitles` is the entire untruncated text (the line-77 call),
before any chunk update, whether or not the chunk loop later fails. -/
theorem display_subtitles_first_update_is_full_text (text : String) :
    (display_subtitles text).updates.head? = some text := by
  unfold display_subtitles
  cases h : subtitle_chunks_of text <;> rfl

/-- C5: `translate_text` never raises past its boundary: a raising client
call gives the placeholder; a response with the error marker gives the
placeholder; a well-formed error-free response gives the first choice
message content stripped of surrounding whitespace (an error-free response
with no choices raises `IndexError` inside the `try`, which is caught and
also yields the placeholder). -/
theorem translate_text_never_raises_placeholder_or_stripped
    (api : Except PyError ChatCompletion) :
    (∀ e, api = Except.error e →
      translate_text api = "[Translation Error]") ∧
    (∀ c, api = Except.ok c → c.containsError = true →
      translate_text api = "[Translation Error]") ∧
    (∀ c, api = Except.ok c → c.containsError = false → c.choices = [] →
      translate_text api = "[Translation Error]") ∧
    (∀ c choice rest, api = Except.ok c → c.containsError = false →
      c.choices = choice :: rest →
      translate_text api = pyStrip choice.message.content) := by
  refine ⟨?_, ?_, ?_, ?_⟩
  · rintro e rfl; rfl
  · rintro c rfl hc
    simp [translate_text, translate_body, hc, Bind.bind, Except.bind]
  · rintro c rfl hc hch
    simp [translate_text, translate_body, hc, hch, Bind.bind, Except.bind]
  · rintro c choice rest rfl hc hch
    simp [translate_text, translate_body, hc, hch, Bind.bind, Except.bind]

/-- Witness for C5: a raising call yields the placeholder, and a
successful response yields the stripped content. -/
theorem translate_text_never_raises_witness :
    translate_text (Except.error PyError.apiError) = "[Translation Error]" ∧
    translate_text
        (Except.ok { choices := [{ message := { content := "  Good day  " } }]
                     containsError := false })
      = "Good day" := by
  constructor
  · exact (translate_text_never_raises_placeholder_or_stripped
      (Except.error PyError.apiError)).1 PyError.apiError rfl
  · have h := (translate_text_never_raises_placeholder_or_stripped
        (Except.ok { choices := [{ message := { content := "  Good day  " } }]
                     containsError := false })).2.2.2
        { choices := [{ message := { content := "  Good day  " } }]
          containsError := false }
        { message := { content := "  Good day  " } } [] rfl rfl rfl
    rw [h]
    rfl

/-- C6: `update_obs_subtitles` never raises past its boundary: for every
sink outcome it returns normally (an `Except.ok` log list), and when the
remote call raises, the exception is caught and the logged lines record
the error. -/
theorem update_obs_subtitles_never_raises
    (sink : Except ObsError String) (text : String) :
    (∃ logs, update_obs_subtitles sink text = Except.ok logs) ∧
    (∀ e, sink = Except.error e →
      update_obs_subtitles sink text =
        Except.ok ["Error updating OBS: " ++ obsErrorMessage e]) := by
  constructor
  · cases sink <;> exact ⟨_, rfl⟩
  · rintro e rfl; rfl

/-- Witness for C6 at an unreachable sink. -/
theorem update_obs_subtitles_never_raises_witness :
    update_obs_subtitles (Except.error ObsError.connectionFailed) "hi" =
      Except.ok ["Error updating OBS: connection failed"] := by
  have h := (update_obs_subtitles_never_raises
      (Except.error ObsError.connectionFailed) "hi").2
      ObsError.connectionFailed rfl
  rw [h]
  rfl

/-- C7 (code bug): in end-to-end scenario 1 (recognized Icelandic text,
mock translation "Good day, this is a test", limit 60) the handler does
not send exactly one chunk: the chunk loop raises `TypeError`, zero chunk
updates are sent, and the only sink update is the pre-loop full-text call;
the `TypeError` escapes the handler. -/
theorem scenario1_zero_chunk_updates :
    on_recognized
        (Except.ok
          { choices := [{ message := { content := "Good day, this is a test" } }]
            containsError := false })
        { result := { reason := ResultReason.recognizedSpeech
                      text := "Góðan dag, þetta er próf"
                      cancellation_details :=
                        { reason := CancellationReason.endOfStream
                          error_details := "" } } } =
      { translationCalls := ["Góðan dag, þetta er próf"]
        overlayUpdates := ["Good day, this is a test"]
        logs := ["Recognized (Icelandic): Góðan dag, þetta er próf",
                 "Translated (English): Good day, this is a test"]
        err := some PyError.typeError } := by
  rfl

/-- C9: for every event whose reason is not `RecognizedSpeech`, the
handler makes no translation call and sends no overlay update; for a
`Canceled` event whose cancellation reason is `Error`, the error detail
is logged. -/
theorem non_recognized_event_no_translate_no_update
    (api : Except PyError ChatCompletion) (event : SpeechEvent)
    (h : event.result.reason ≠ ResultReason.recognizedSpeech) :
    (on_recognized api event).translationCalls = [] ∧
    (on_recognized api event).overlayUpdates = [] ∧
    (event.result.reason = ResultReason.canceled →
      event.result.cancellation_details.reason = CancellationReason.error →
      ("Error details: " ++ event.result.cancellation_details.error_details)
        ∈ (on_recognized api event).logs) := by
  rcases hr : event.result.reason with _ | _ | _
  · exact absurd hr h
  · refine ⟨?_, ?_, ?_⟩ <;> simp [on_recognized, hr]
  · refine ⟨?_, ?_, ?_⟩ <;> intros <;>
      simp_all [on_recognized, hr]

/-- Witness for C9 at a concrete `Canceled`/`Error` event. -/
theorem non_recognized_event_witness :
    (on_recognized (Except.error PyError.apiError)
        { result := { reason := ResultReason.canceled
                      text := ""
                      cancellation_details :=
                        { reason := CancellationReason.error
                          error_details := "boom" } } }).translationCalls
        = [] ∧
    (on_recognized (Except.error PyError.apiError)
        { result := { reason := ResultReason.canceled
                      text := ""
                      cancellation_details :=
                        { reason := CancellationReason.error
                          error_details := "boom" } } }).overlayUpdates
        = [] ∧
    ("Error details: boom") ∈
      (on_recognized (Except.error PyError.apiError)
        { result := { reason := ResultReason.canceled
                      text := ""
                      cancellation_details :=
                        { reason := CancellationReason.error
                          error_details := "boom" } } }).logs := by
  have h := non_recognized_event_no_translate_no_update
      (Except.error PyError.apiError)
      { result := { reason := ResultReason.canceled
                    text := ""
                    cancellation_details :=
                      { reason := CancellationReason.error
                        error_details := "boom" } } }
      (by decide)
  exact ⟨h.1, h.2.1, h.2.2 rfl rfl⟩

/-- C10: when the startup OBS connection raises, the process exits with
status 1 (for every outcome of the subsequent test call, which is never
reached); and for every number of sleep iterations before the interrupt,
`main` stops recognition then disconnects from OBS as its last two
actions and the process exits with status 0. -/
theorem startup_exit1_and_clean_shutdown_exit0 :
    (∀ (e : ObsError) (t : Except ObsError String),
      (startup_block (Except.error e) t).exitCode = some 1) ∧
    (∀ n : Nat, ∃ pre : List MainAction,
      (main_run n).1 =
        pre ++ [MainAction.stopRecognition, MainAction.obsDisconnect] ∧
      (main_run n).2 = 0) := by
  constructor
  · intro e t; rfl
  · intro n
    exact ⟨MainAction.startRecognition ::
        List.replicate n MainAction.sleepOneSecond,
      by simp [main_run], rfl⟩

end SpeechObs
